import Mathlib

/-!
Shallow embedding of `src/async_write.rs` from the `partial-io` crate:
the `PartialAsyncWrite<W>` wrapper, its `Write` implementation
(`write`, `flush`), its `AsyncWrite` implementation (`shutdown`) and its
duplex `Read` forwarding.

Modelling decisions:
* bytes are `Nat` (no byte arithmetic occurs in the source);
* the boxed `Iterator<Item = PartialOp>` is a `List PartialOp`
  (`next()` = pop the head, `None` = empty list);
* the inner stream `W` is an abstract state machine: a state type `σ`
  together with a record `InnerWriter σ` of its `write`/`flush`/`shutdown`/
  `read` transition functions, each returning the successor state and an
  `io::Result`;
* `io::Error` is a kind plus a message string; `io::ErrorKind` is a
  representative closed enumeration containing `WouldBlock`;
* the side effect `task::park().unpark()` (re-arming the current task) is
  modelled by a `Bool` in the result of `write`/`flush`: `true` exactly
  when the source executed the unpark call.
-/

/-- Mirror of `io::ErrorKind` (representative variants; the source only
compares against `WouldBlock`). -/
inductive ErrorKind where
  | WouldBlock
  | BrokenPipe
  | Interrupted
  | InvalidData
  | UnexpectedEof
  | Other
deriving DecidableEq, BEq, Repr

/-- Mirror of `io::Error`: an error kind plus a message. -/
structure IoError where
  kind : ErrorKind
  msg : String
deriving DecidableEq, Repr

/-- `io::Result<A>`. -/
def IoResult (α : Type) : Type := Except IoError α

/-- Mirror of `futures::Poll<A, io::Error>` as used by `shutdown`. -/
inductive Poll (α : Type) where
  | Ready (a : α)
  | NotReady
deriving DecidableEq, Repr

/-- Mirror of `PartialOp` from the crate root. -/
inductive PartialOp where
  | Unlimited
  | Limited (n : Nat)
  | Err (kind : ErrorKind)
deriving DecidableEq, Repr

/-- The inner stream `W`: an abstract state machine over states `σ`, with
the operations the wrapper delegates to. `write` receives the byte slice
handed to it and returns the reported count; `read n` receives the
destination capacity and returns the bytes placed into the buffer. -/
structure InnerWriter (σ : Type) where
  write : σ → List Nat → σ × IoResult Nat
  flush : σ → σ × IoResult Unit
  shutdown : σ → σ × IoResult (Poll Unit)
  read : σ → Nat → σ × IoResult (List Nat)

/-- Mirror of `PartialAsyncWrite<W>`: the inner stream's state and the
remaining operation sequence. -/
structure PartialAsyncWrite (σ : Type) where
  inner : σ
  ops : List PartialOp
deriving DecidableEq, Repr

/-- `PartialAsyncWrite::new(inner, iter)`. -/
def PartialAsyncWrite.new (inner : σ) (iter : List PartialOp) :
    PartialAsyncWrite σ :=
  ⟨inner, iter⟩

/-- `<PartialAsyncWrite as Write>::write(buf)`. Returns the successor
wrapper state, whether `task::park().unpark()` was executed, and the
`io::Result<usize>`. -/
def PartialAsyncWrite.write (W : InnerWriter σ) (s : PartialAsyncWrite σ)
    (buf : List Nat) : PartialAsyncWrite σ × Bool × IoResult Nat :=
  match s.ops with
  | PartialOp.Limited n :: rest =>
      let len := min n buf.length
      let p := W.write s.inner (buf.take len)
      (⟨p.1, rest⟩, false, p.2)
  | PartialOp.Err err :: rest =>
      (⟨s.inner, rest⟩, err == ErrorKind.WouldBlock,
       Except.error ⟨err, "error during write, generated by partial-io"⟩)
  | PartialOp.Unlimited :: rest =>
      let p := W.write s.inner buf
      (⟨p.1, rest⟩, false, p.2)
  | [] =>
      let p := W.write s.inner buf
      (⟨p.1, []⟩, false, p.2)

/-- `<PartialAsyncWrite as Write>::flush()`. Same result convention as
`PartialAsyncWrite.write`. The source matches `Some(PartialOp::Err(err))`
and sends every other case (`Some(Limited)`, `Some(Unlimited)`, `None`)
to `self.inner.flush()`; in every `Some` case `next()` has consumed the
element. -/
def PartialAsyncWrite.flush (W : InnerWriter σ) (s : PartialAsyncWrite σ) :
    PartialAsyncWrite σ × Bool × IoResult Unit :=
  match s.ops with
  | PartialOp.Err err :: rest =>
      (⟨s.inner, rest⟩, err == ErrorKind.WouldBlock,
       Except.error ⟨err, "error during flush, generated by partial-io"⟩)
  | _ :: rest =>
      let p := W.flush s.inner
      (⟨p.1, rest⟩, false, p.2)
  | [] =>
      let p := W.flush s.inner
      (⟨p.1, []⟩, false, p.2)

/-- `<PartialAsyncWrite as AsyncWrite>::shutdown()`: plain delegation to
the inner stream, no interaction with the operation sequence. -/
def PartialAsyncWrite.shutdown (W : InnerWriter σ) (s : PartialAsyncWrite σ) :
    PartialAsyncWrite σ × IoResult (Poll Unit) :=
  let p := W.shutdown s.inner
  (⟨p.1, s.ops⟩, p.2)

/-- `<PartialAsyncWrite as Read>::read(buf)`: plain delegation to the
inner stream, no interaction with the operation sequence. -/
def PartialAsyncWrite.read (W : InnerWriter σ) (s : PartialAsyncWrite σ)
    (cap : Nat) : PartialAsyncWrite σ × IoResult (List Nat) :=
  let p := W.read s.inner cap
  (⟨p.1, s.ops⟩, p.2)

/-- An intercepted call on the wrapper: the operations that consult the
operation sequence (`write` and `flush`). -/
inductive WCall where
  | wr (buf : List Nat)
  | fl
deriving DecidableEq, Repr

/-- One intercepted call, keeping only the successor wrapper state. -/
def stepCall (W : InnerWriter σ) (s : PartialAsyncWrite σ) : WCall → PartialAsyncWrite σ
  | WCall.wr buf => (PartialAsyncWrite.write W s buf).1
  | WCall.fl => (PartialAsyncWrite.flush W s).1

/-- A sequence of intercepted calls, run left to right. -/
def runCalls (W : InnerWriter σ) (s : PartialAsyncWrite σ) : List WCall → PartialAsyncWrite σ
  | [] => s
  | c :: cs => runCalls W (stepCall W s c) cs

/-- A concrete inner stream for scenarios: `Cursor::new(Vec::new())` as a
sink whose state is the bytes written so far; `write` appends the whole
slice and reports its length, `flush` succeeds and is stateless. -/
def sinkWriter : InnerWriter (List Nat) where
  write := fun s buf => (s ++ buf, Except.ok buf.length)
  flush := fun s => (s, Except.ok ())
  shutdown := fun s => (s, Except.ok (Poll.Ready ()))
  read := fun s _ => (s, Except.ok [])

/-- Any intercepted call pops exactly one element of the operation
sequence (and an exhausted sequence stays exhausted). -/
theorem stepCall_ops (W : InnerWriter σ) (s : PartialAsyncWrite σ) (c : WCall) :
    (stepCall W s c).ops = s.ops.tail := by
  cases c with
  | wr buf =>
      cases s with
      | mk inner ops =>
          cases ops with
          | nil => rfl
          | cons o rest => cases o <;> rfl
  | fl =>
      cases s with
      | mk inner ops =>
          cases ops with
          | nil => rfl
          | cons o rest => cases o <;> rfl

/-- After `k` intercepted calls the operation sequence has lost exactly
its first `k` elements. -/
theorem runCalls_ops (W : InnerWriter σ) (s : PartialAsyncWrite σ)
    (cs : List WCall) : (runCalls W s cs).ops = s.ops.drop cs.length := by
  induction cs generalizing s with
  | nil => rfl
  | cons c cs ih =>
      show (runCalls W (stepCall W s c) cs).ops = _
      rw [ih, stepCall_ops, ← List.drop_one, List.drop_drop, List.length_cons,
        Nat.add_comm]

/-- Claim C1: on a `write` call, a popped `Limited(n)` forwards exactly
the first `min(n, buf.len())` bytes of `buf` to the inner stream in one
inner write (also when the cap is `0`) and returns the inner stream's
result unchanged; a popped `Err` returns the fabricated error without
calling the inner stream; `Unlimited` or an exhausted sequence forwards
the full-length write. -/
theorem writeFollowsPolicy (W : InnerWriter σ) (inner : σ) (buf : List Nat) :
    (∀ n rest, PartialAsyncWrite.write W ⟨inner, PartialOp.Limited n :: rest⟩ buf
        = (⟨(W.write inner (buf.take (min n buf.length))).1, rest⟩, false,
           (W.write inner (buf.take (min n buf.length))).2))
  ∧ (∀ k rest, PartialAsyncWrite.write W ⟨inner, PartialOp.Err k :: rest⟩ buf
        = (⟨inner, rest⟩, k == ErrorKind.WouldBlock,
           Except.error ⟨k, "error during write, generated by partial-io"⟩))
  ∧ (∀ rest, PartialAsyncWrite.write W ⟨inner, PartialOp.Unlimited :: rest⟩ buf
        = (⟨(W.write inner buf).1, rest⟩, false, (W.write inner buf).2))
  ∧ PartialAsyncWrite.write W ⟨inner, []⟩ buf
        = (⟨(W.write inner buf).1, []⟩, false, (W.write inner buf).2) :=
  ⟨fun _ _ => rfl, fun _ _ => rfl, fun _ => rfl, rfl⟩

/-- Claim C2: a popped `Err(kind)` on `write` or `flush` leaves the inner
stream's state unchanged, gives a result that does not depend on the
inner stream at all (no call reaches it), and returns an error of that
exact kind whose fixed message distinguishes the write context from the
flush context and names the fault-injection layer. -/
theorem errSkipsInner (W : InnerWriter σ) (inner : σ) (buf : List Nat)
    (k : ErrorKind) (rest : List PartialOp) :
    (PartialAsyncWrite.write W ⟨inner, PartialOp.Err k :: rest⟩ buf).1.inner = inner
  ∧ (∀ W2 : InnerWriter σ,
        PartialAsyncWrite.write W ⟨inner, PartialOp.Err k :: rest⟩ buf
          = PartialAsyncWrite.write W2 ⟨inner, PartialOp.Err k :: rest⟩ buf)
  ∧ (PartialAsyncWrite.write W ⟨inner, PartialOp.Err k :: rest⟩ buf).2.2
      = Except.error ⟨k, "error during write, generated by partial-io"⟩
  ∧ (PartialAsyncWrite.flush W ⟨inner, PartialOp.Err k :: rest⟩).1.inner = inner
  ∧ (∀ W2 : InnerWriter σ,
        PartialAsyncWrite.flush W ⟨inner, PartialOp.Err k :: rest⟩
          = PartialAsyncWrite.flush W2 ⟨inner, PartialOp.Err k :: rest⟩)
  ∧ (PartialAsyncWrite.flush W ⟨inner, PartialOp.Err k :: rest⟩).2.2
      = Except.error ⟨k, "error during flush, generated by partial-io"⟩
  ∧ ("error during write, generated by partial-io" : String)
      ≠ "error during flush, generated by partial-io" :=
  ⟨rfl, fun _ => rfl, rfl, rfl, fun _ => rfl, rfl, by decide⟩

/-- Claim C3: with the sequence `[Err(WouldBlock), Limited(2)]` and an
empty sink, writing `[1,2,3,4]` with retries: the first call fails with a
would-block error and writes nothing, the second writes exactly `[1,2]`,
the third (sequence exhausted) writes the remaining `[3,4]`, and the
final sink contents are `[1,2,3,4]`. -/
theorem scenarioWouldBlockLimited2 :
    PartialAsyncWrite.write sinkWriter
        ⟨[], [PartialOp.Err ErrorKind.WouldBlock, PartialOp.Limited 2]⟩ [1, 2, 3, 4]
      = (⟨[], [PartialOp.Limited 2]⟩, true,
         Except.error ⟨ErrorKind.WouldBlock, "error during write, generated by partial-io"⟩)
  ∧ PartialAsyncWrite.write sinkWriter ⟨[], [PartialOp.Limited 2]⟩ [1, 2, 3, 4]
      = (⟨[1, 2], []⟩, false, Except.ok 2)
  ∧ PartialAsyncWrite.write sinkWriter ⟨[1, 2], []⟩ [3, 4]
      = (⟨[1, 2, 3, 4], []⟩, false, Except.ok 2) :=
  ⟨rfl, rfl, rfl⟩

/-- Claim C4: a popped `Err(WouldBlock)` on `write` or `flush` both
notifies the scheduler (the unpark flag is `true`) and still returns the
would-block error; for any other kind no notification happens. -/
theorem wouldBlockUnparks (W : InnerWriter σ) (inner : σ) (buf : List Nat)
    (k : ErrorKind) (rest : List PartialOp) :
    ((PartialAsyncWrite.write W ⟨inner, PartialOp.Err k :: rest⟩ buf).2.1 = true
        ↔ k = ErrorKind.WouldBlock)
  ∧ (PartialAsyncWrite.write W ⟨inner, PartialOp.Err k :: rest⟩ buf).2.2
      = Except.error ⟨k, "error during write, generated by partial-io"⟩
  ∧ ((PartialAsyncWrite.flush W ⟨inner, PartialOp.Err k :: rest⟩).2.1 = true
        ↔ k = ErrorKind.WouldBlock)
  ∧ (PartialAsyncWrite.flush W ⟨inner, PartialOp.Err k :: rest⟩).2.2
      = Except.error ⟨k, "error during flush, generated by partial-io"⟩ := by
  refine ⟨?_, rfl, ?_, rfl⟩ <;> cases k <;>
    simp [PartialAsyncWrite.write, PartialAsyncWrite.flush] <;> decide

/-- Claim C5: with the operation sequence exhausted, `write` and `flush`
delegate in full to the inner stream, return its result unmodified
(whatever it is), leave the sequence exhausted, and coincide exactly with
the `Unlimited` behaviour; exhaustion itself is never an error. -/
theorem exhaustedActsUnlimited (W : InnerWriter σ) (inner : σ) (buf : List Nat) :
    PartialAsyncWrite.write W ⟨inner, []⟩ buf
      = (⟨(W.write inner buf).1, []⟩, false, (W.write inner buf).2)
  ∧ PartialAsyncWrite.write W ⟨inner, []⟩ buf
      = PartialAsyncWrite.write W ⟨inner, [PartialOp.Unlimited]⟩ buf
  ∧ PartialAsyncWrite.flush W ⟨inner, []⟩
      = (⟨(W.flush inner).1, []⟩, false, (W.flush inner).2)
  ∧ PartialAsyncWrite.flush W ⟨inner, []⟩
      = PartialAsyncWrite.flush W ⟨inner, [PartialOp.Unlimited]⟩ :=
  ⟨rfl, rfl, rfl, rfl⟩

/-- Claim C6: every `flush` pops exactly one element; `Limited(n)` is
treated identically to `Unlimited` (the flush is forwarded), `Err`
returns the fabricated error without flushing the inner stream, and
`Unlimited` or an exhausted sequence forwards to the inner flush. -/
theorem flushFollowsPolicy (W : InnerWriter σ) (inner : σ) :
    (∀ (n : Nat) rest, PartialAsyncWrite.flush W ⟨inner, PartialOp.Limited n :: rest⟩
        = (⟨(W.flush inner).1, rest⟩, false, (W.flush inner).2))
  ∧ (∀ (n : Nat) rest, PartialAsyncWrite.flush W ⟨inner, PartialOp.Limited n :: rest⟩
        = PartialAsyncWrite.flush W ⟨inner, PartialOp.Unlimited :: rest⟩)
  ∧ (∀ k rest, PartialAsyncWrite.flush W ⟨inner, PartialOp.Err k :: rest⟩
        = (⟨inner, rest⟩, k == ErrorKind.WouldBlock,
           Except.error ⟨k, "error during flush, generated by partial-io"⟩))
  ∧ (∀ rest, PartialAsyncWrite.flush W ⟨inner, PartialOp.Unlimited :: rest⟩
        = (⟨(W.flush inner).1, rest⟩, false, (W.flush inner).2))
  ∧ PartialAsyncWrite.flush W ⟨inner, []⟩
        = (⟨(W.flush inner).1, []⟩, false, (W.flush inner).2) :=
  ⟨fun _ _ => rfl, fun _ _ => rfl, fun _ _ => rfl, fun _ => rfl, rfl⟩

/-- Claim C7: consumption is strictly ordered and call-for-call: each
intercepted call (`write` or `flush`, sharing one position) consumes
exactly the head of the sequence, after `N` calls exactly the first `N`
elements are gone, and the element governing the next call is element `N`
of the original sequence — nothing skipped, doubled, or peeked. -/
theorem opsStrictlyOrdered (W : InnerWriter σ) (s : PartialAsyncWrite σ)
    (cs : List WCall) (c : WCall) :
    (stepCall W s c).ops = s.ops.tail
  ∧ (runCalls W s cs).ops = s.ops.drop cs.length
  ∧ (runCalls W s cs).ops.head? = s.ops.get? cs.length :=
  ⟨stepCall_ops W s c, runCalls_ops W s cs, by
    rw [runCalls_ops, ← List.get?_zero, List.get?_drop, Nat.add_zero]⟩

/-- Claim C8: `shutdown` forwards directly to the inner stream's shutdown
and bypasses the operation sequence: no element is consumed, no fault is
injected, and only the inner stream's own shutdown effect occurs. -/
theorem shutdownBypassesOps (W : InnerWriter σ) (inner : σ)
    (ops : List PartialOp) :
    PartialAsyncWrite.shutdown W ⟨inner, ops⟩
      = (⟨(W.shutdown inner).1, ops⟩, (W.shutdown inner).2) :=
  rfl

/-- Claim C9: a `read` call on the write-direction wrapper is forwarded
unmodified to the inner stream and behaves exactly as if the wrapper were
absent: it consumes no element of the operation sequence and its result
equals the inner stream's. -/
theorem readForwardsUnwrapped (W : InnerWriter σ) (inner : σ)
    (ops : List PartialOp) (cap : Nat) :
    PartialAsyncWrite.read W ⟨inner, ops⟩ cap
      = (⟨(W.read inner cap).1, ops⟩, (W.read inner cap).2) :=
  rfl

/-- Claim C10: for `n ≥ buf.len()`, a write governed by `Limited(n)` is
exactly equivalent to the same write governed by `Unlimited`: the whole
buffer is forwarded in one inner call and the inner stream's result is
returned unchanged. -/
theorem limitedLargeEqUnlimited (W : InnerWriter σ) (inner : σ)
    (buf : List Nat) (n : Nat) (rest : List PartialOp) (h : buf.length ≤ n) :
    PartialAsyncWrite.write W ⟨inner, PartialOp.Limited n :: rest⟩ buf
      = PartialAsyncWrite.write W ⟨inner, PartialOp.Unlimited :: rest⟩ buf := by
  show ((⟨(W.write inner (buf.take (min n buf.length))).1, rest⟩ : PartialAsyncWrite σ),
        false, (W.write inner (buf.take (min n buf.length))).2)
     = ((⟨(W.write inner buf).1, rest⟩ : PartialAsyncWrite σ),
        false, (W.write inner buf).2)
  rw [min_eq_right h, List.take_length]

/-- Witness for Claim C10 at a concrete input. -/
theorem limitedLargeEqUnlimitedWitness :
    ([1, 2, 3] : List Nat).length ≤ 5
  ∧ PartialAsyncWrite.write sinkWriter ⟨[], [PartialOp.Limited 5]⟩ [1, 2, 3]
      = PartialAsyncWrite.write sinkWriter ⟨[], [PartialOp.Unlimited]⟩ [1, 2, 3] :=
  ⟨by decide, limitedLargeEqUnlimited sinkWriter [] [1, 2, 3] 5 [] (by decide)⟩
